import Mathlib

/-!
Verification of the Jarvis conversational-assistant backend core against its
natural-language specification.

The development shallowly embeds the Python source of the repository:

* `backend/services/ai_provider.py` — the provider abstraction
  (`OpenAIProvider`, `HuggingFaceProvider`) as pure functions of the
  backend observations (SDK responses, stream events, decoded JSON);
* `backend/services/self_review.py` — the JSON parsing / fallback phase of
  `run_self_review`;
* `backend/main.py` — the `/chat` handler as a pure state-passing function,
  with external effects (provider call, memory gateway, auto-audit) passed
  in as parameters and the calls the handler makes returned as data.

Python strings are modelled as lists of characters (`Str`); only the ASCII
behaviour of `str.lower`/`str.strip`/`str.split` is needed by the texts the
code manipulates, and the model restricts to it.
-/

namespace Jarvis

/-- Python strings, modelled as lists of characters. -/
abbrev Str := List Char

/-- ASCII whitespace recognised by Python `str.strip()` / `str.split()`
with no arguments. -/
def isPySpace (c : Char) : Bool :=
  c = ' ' || c = '\t' || c = '\n' || c = '\r' || c = '\x0b' || c = '\x0c'

/-- Python `str.strip()` with no arguments: drop leading and trailing
whitespace. -/
def pyStrip (s : Str) : Str :=
  ((s.dropWhile isPySpace).reverse.dropWhile isPySpace).reverse

/-- Accumulator pass for Python `str.split()` with no arguments. -/
def wordsAux : Str → Str → List Str
  | [], acc => if acc.isEmpty then [] else [acc.reverse]
  | c :: cs, acc =>
    if isPySpace c then
      if acc.isEmpty then wordsAux cs [] else acc.reverse :: wordsAux cs []
    else wordsAux cs (c :: acc)

/-- Python `str.split()` with no arguments: whitespace-separated words,
no empty pieces. -/
def pyWords (s : Str) : List Str := wordsAux s []

/-- The whitespace normalisation used before trigger matching in
`_is_self_review_request`. -/
def normWs (s : Str) : Str := List.intercalate (" ".data) (pyWords s)

/-- Whether the pattern is a leading segment of the text. -/
def leadSeg : Str → Str → Bool
  | [], _ => true
  | _ :: _, [] => false
  | p :: ps, c :: cs => p = c && leadSeg ps cs

/-- Python `in` on strings: the pattern occurs contiguously in the text. -/
def containsSub : Str → Str → Bool
  | [], p => p.isEmpty
  | c :: rest, p => leadSeg p (c :: rest) || containsSub rest p

/-- One append of `collections.deque(maxlen=cap)`: the oldest element is
dropped when the deque is full. -/
def dequeAppend (cap : Nat) (q : List α) (x : α) : List α :=
  if q.length < cap then q ++ [x] else q.drop 1 ++ [x]

/-- The `Attachment` dataclass of `backend/services/ai_provider.py`.
File bytes are modelled as natural numbers below 256. -/
structure Attachment where
  filename : Str
  content : List Nat
  content_type : Option Str
deriving DecidableEq

/-- A raised `ProviderRequestError` together with its message. -/
structure PErr where
  message : Str
deriving DecidableEq

/-- One content item of an output message of an OpenAI SDK response. -/
structure OAContent where
  type : Str
  text : Str
deriving DecidableEq

/-- One output entry of an OpenAI SDK response. -/
structure OAOutput where
  type : Str
  content : List OAContent
deriving DecidableEq

/-- The parts of an OpenAI SDK response object that
`OpenAIProvider.generate_response` reads. -/
structure OAResponse where
  output_text : Str
  output : List OAOutput
deriving DecidableEq

/-- Events of `client.responses.stream(...)` as `stream_response` consumes
them: text deltas, the completed event carrying the final response, error
events, and event types the code ignores. -/
inductive OAEvent where
  | delta (chunk : Str)
  | completed (response : Option OAResponse)
  | errorEv (message : Option Str)
  | other (etype : Str)
deriving DecidableEq

/-- The fallback scan over `response.output` shared by
`OpenAIProvider.generate_response` (lines 117-126) and the tail of
`stream_response` (lines 163-172): the first content of type
`output_text` inside an output of type `message` whose stripped text is
non-empty. -/
def scanOutput (outs : List OAOutput) : Option Str :=
  outs.findSome? fun o =>
    if o.type = "message".data then
      o.content.findSome? fun c =>
        if c.type = "output_text".data && !(pyStrip c.text).isEmpty then
          some (pyStrip c.text)
        else none
    else none

/-- `OpenAIProvider.generate_response` as a function of the SDK response of
its one non-streaming `responses.create` call.  The in-flight
`ProviderRequestError("Empty response received from OpenAI")` raised at
line 129 sits inside the surrounding `try`, so the `except Exception`
handler at line 132 re-raises it as "Failed to fetch a response from
OpenAI". -/
def openaiGenerate (resp : OAResponse) : Except PErr Str :=
  let r0 := pyStrip resp.output_text
  let r := if r0.isEmpty then (scanOutput resp.output).getD [] else r0
  if r.isEmpty then .error ⟨"Failed to fetch a response from OpenAI".data⟩
  else .ok r

/-- Result of driving a provider stream to its end: the chunks the
generator yielded, and the error it raised afterwards, if any. -/
structure StreamRun where
  chunks : List Str
  error : Option PErr
deriving DecidableEq

/-- The event loop of `OpenAIProvider.stream_response` (lines 144-156):
yield each non-empty delta, remember the response of the completed event,
raise on an error event.  Returns the yielded chunks, the remembered final
response and the raised error, if any. -/
def streamEvents (events : List OAEvent) (fin : Option OAResponse) :
    List Str × Option OAResponse × Option PErr :=
  match events with
  | [] => ([], fin, none)
  | .delta c :: es =>
    if c.isEmpty then streamEvents es fin
    else
      let rest := streamEvents es fin
      (c :: rest.1, rest.2.1, rest.2.2)
  | .completed r :: es => streamEvents es r
  | .errorEv m :: _ =>
    ([], fin, some ⟨m.getD ("Failed to stream a response from OpenAI".data)⟩)
  | .other _ :: es => streamEvents es fin

/-- The fallback-text extraction at the end of `stream_response`
(lines 161-172), identical in shape to the extraction of
`generate_response`. -/
def streamFallback (final : OAResponse) : Str :=
  let t := pyStrip final.output_text
  if t.isEmpty then (scanOutput final.output).getD [] else t

/-- `OpenAIProvider.stream_response` driven to its end, as a function of
the event sequence and of the value `stream.get_final_response()` would
return.  The `except ProviderRequestError: raise` clause at line 185 lets
the "Empty response received from OpenAI" error escape unchanged. -/
def openaiStream (events : List OAEvent) (getFinal : Option OAResponse) :
    StreamRun :=
  match streamEvents events none with
  | (cs, _, some e) => ⟨cs, some e⟩
  | (cs, fin, none) =>
    let final := match fin with
      | some f => some f
      | none => getFinal
    if cs.isEmpty then
      match final with
      | some f =>
        let fb := streamFallback f
        if fb.isEmpty then
          ⟨[], some ⟨"Empty response received from OpenAI".data⟩⟩
        else ⟨[fb], none⟩
      | none => ⟨[], some ⟨"Empty response received from OpenAI".data⟩⟩
    else ⟨cs, none⟩

/-- JSON values as Python decodes them (`response.json()`,
`json.loads`). -/
inductive JVal where
  | jnull
  | jbool (b : Bool)
  | jnum (n : Int)
  | jstr (s : Str)
  | jarr (elems : List JVal)
  | jobj (fields : List (Str × JVal))

/-- Python truthiness of a decoded JSON value. -/
def jTruthy : JVal → Bool
  | .jnull => false
  | .jbool b => b
  | .jnum n => n != 0
  | .jstr s => !s.isEmpty
  | .jarr l => !l.isEmpty
  | .jobj l => !l.isEmpty

/-- Python `dict.get`: the value bound to the key, if any (decoded JSON
objects have unique keys). -/
def jGet (fields : List (Str × JVal)) (key : Str) : Option JVal :=
  (fields.find? fun kv => kv.1 == key).map fun kv => kv.2

/-- How `HuggingFaceProvider.generate_response` terminates: the returned
text, a raised `ProviderRequestError`, or the uncaught `AttributeError`
that `data[0].get(...)` raises when the first list element is not an
object. -/
inductive HFOutcome where
  | ok (text : Str)
  | requestError (message : Str)
  | attributeError

/-- The payload interpretation of `HuggingFaceProvider.generate_response`
(lines 217-227), as a function of the decoded JSON body of a successful
HTTP call. -/
def hfParse (data : JVal) : HFOutcome :=
  match data with
  | .jarr (first :: _) =>
    match first with
    | .jobj fields =>
      match jGet fields ("generated_text".data) with
      | some (.jstr s) => .ok s
      | _ => .requestError ("Unexpected response structure from Hugging Face".data)
    | _ => .attributeError
  | .jobj fields =>
    let g := jGet fields ("generated_text".data)
    let v := match g with
      | some gv => if jTruthy gv then some gv else jGet fields ("text".data)
      | none => jGet fields ("text".data)
    match v with
    | some (.jstr s) => .ok s
    | _ => .requestError ("Unexpected response structure from Hugging Face".data)
  | _ => .requestError ("Unexpected response structure from Hugging Face".data)

/-- `HuggingFaceProvider.generate_response` including the HTTP boundary:
`httpResult` is `none` when `httpx.post` or `raise_for_status` raised,
otherwise the decoded JSON body. -/
def hfGenerate (httpResult : Option JVal) : HFOutcome :=
  match httpResult with
  | none => .requestError ("Failed to fetch a response from Hugging Face".data)
  | some data => hfParse data

/-- `HuggingFaceProvider.stream_response`: a generator that yields
`self.generate_response(prompt, attachments)` exactly once; consuming it
gives one chunk, or the error `generate_response` raised. -/
def hfStream (httpResult : Option JVal) : List Str × Option HFOutcome :=
  match hfGenerate httpResult with
  | .ok t => ([t], none)
  | e => ([], some e)

/-- The report structure of `run_self_review`: one string per expected
section key. -/
structure AuditReport where
  architecture : Str
  securite : Str
  lisibilite_style : Str
  performance : Str
  maintenabilite : Str
  ameliorations_proposees : Str
deriving DecidableEq

/-- The six expected section keys (`_EXPECTED_KEYS`). -/
def expectedKeys : List Str :=
  ["architecture".data, "securite".data, "lisibilite_style".data,
   "performance".data, "maintenabilite".data, "ameliorations_proposees".data]

/-- The diagnostic message built by `_fallback_report` (lines 130-134). -/
def fallbackMessage (rawResponse reason : Str) : Str :=
  pyStrip (reason ++ "\n\nRéponse brute du provider :\n```\n".data
    ++ pyStrip rawResponse ++ "\n```".data)

/-- `_fallback_report`: every section holds the same diagnostic message
embedding the (stripped) raw provider output. -/
def fallbackReport (rawResponse reason : Str) : AuditReport :=
  let m := fallbackMessage rawResponse reason
  ⟨m, m, m, m, m, m⟩

/-- The placeholder substituted for a missing, empty or non-string section
value (lines 167-169). -/
def missingInfo : Str :=
  "Information manquante pour cette section dans la réponse du provider.".data

/-- Per-key extraction of `run_self_review` (lines 161-169): the trimmed
string value when present and non-empty, else the placeholder. -/
def sectionValue (fields : List (Str × JVal)) (key : Str) : Str :=
  match jGet fields key with
  | some (.jstr v) => if (pyStrip v).isEmpty then missingInfo else pyStrip v
  | _ => missingInfo

/-- The parsing phase of `run_self_review` (lines 147-171), as a function
of the provider response text and of the outcome of `json.loads` on it
(`none` models a `json.JSONDecodeError`). -/
def runSelfReviewParse (responseText : Str) (parsed : Option JVal) :
    AuditReport :=
  match parsed with
  | none =>
    fallbackReport responseText
      ("Impossible de décoder la réponse du provider en JSON.".data)
  | some (.jobj fields) =>
    ⟨sectionValue fields ("architecture".data),
     sectionValue fields ("securite".data),
     sectionValue fields ("lisibilite_style".data),
     sectionValue fields ("performance".data),
     sectionValue fields ("maintenabilite".data),
     sectionValue fields ("ameliorations_proposees".data)⟩
  | some _ =>
    fallbackReport responseText
      ("Le provider n\x27a pas renvoyé un objet JSON pour l\x27audit.".data)

/-- The trigger phrases of `_is_self_review_request` (main.py
lines 188-202). -/
def selfReviewTriggers : List Str :=
  ["auto revue".data, "autorevue".data, "auto revue de ton code".data,
   "auto revue du code".data, "auto audit".data, "self review".data,
   "self-review".data, "audit de ton code".data, "audit du code".data,
   "analyse ton code".data, "analyse de ton code".data,
   "auto-analyse".data, "auto analyse".data]

/-- `_is_self_review_request` (main.py lines 183-206): lower-case the text,
normalise the right single quote to an apostrophe, collapse whitespace, and
look for a trigger in the result or in its hyphen-to-space variant.
Lower-casing is modelled by `Char.toLower` (ASCII); the triggers are all
ASCII. -/
def isSelfReviewRequest (text : Str) : Bool :=
  let normalized :=
    normWs ((text.map Char.toLower).map fun c =>
      if c = '’' then '\x27' else c)
  let noHyphen := normalized.map fun c => if c = '-' then ' ' else c
  selfReviewTriggers.any fun t =>
    containsSub normalized t || containsSub noHyphen t

/-- An inbound `UploadFile` as the handler observes it: `read()` either
returns the bytes or raises (`none`). -/
structure Upload where
  filename : Option Str
  readResult : Option (List Nat)
  content_type : Option Str
deriving DecidableEq

/-- Python `x or default` on an optional string: the string when present
and non-empty, otherwise the default. -/
def orDefault (s : Option Str) (d : Str) : Str :=
  match s with
  | some v => if v.isEmpty then d else v
  | none => d

/-- Lines 347-367 of `chat`: read each upload in order, skip read failures
and empty payloads, default an absent or empty filename to
"pièce-jointe". -/
def uploadsToAttachments (uploads : List Upload) : List Attachment :=
  uploads.filterMap fun u =>
    match u.readResult with
    | none => none
    | some content =>
      if content.isEmpty then none
      else some ⟨orDefault u.filename ("pièce-jointe".data), content,
                 u.content_type⟩

/-- The Memory Gateway as one request observes it: the result of
`retrieve_relevant` (`none` when the call raised, which `chat` downgrades
to no memories). -/
structure MemoryModel where
  retrieveResult : Option (List Str)
deriving DecidableEq

/-- Lines 371-378 of `chat`: the retrieved memories with falsy (empty)
entries filtered out; an absent memory or a raising retrieval yields
none. -/
def relevantMemories (memory : Option MemoryModel) : List Str :=
  match memory with
  | none => []
  | some m =>
    match m.retrieveResult with
    | none => []
    | some l => l.filter fun s => !s.isEmpty

/-- One numbered exchange of the short-term history block
(lines 384-387). -/
def historyEntryText (index : Nat) (qa : Str × Str) : Str :=
  "Échange ".data ++ (toString index).data ++ " :\nUtilisateur : ".data
    ++ qa.1 ++ "\nJarvis : ".data ++ qa.2

/-- The short-term history prompt section (lines 382-391). -/
def historySection (history : List (Str × Str)) : Str :=
  "Voici les derniers échanges avec l\x27utilisateur pour te donner du contexte :\n".data
    ++ List.intercalate ("\n\n".data)
      ((List.enumFrom 1 history).map fun p => historyEntryText p.1 p.2)

/-- The retrieved-memories prompt section (lines 393-398). -/
def memoriesSection (memories : List Str) : Str :=
  "Voici des souvenirs issus de conversations précédentes qui peuvent t\x27aider :\n".data
    ++ List.intercalate ("\n".data) (memories.map fun m => "- ".data ++ m)

/-- The attachment-manifest prompt section (lines 400-407). -/
def attachmentsSection (attachments : List Attachment) : Str :=
  "L\x27utilisateur a fourni des fichiers en pièces jointes. Utilise-les dans ta réponse si pertinent :\n".data
    ++ List.intercalate ("\n".data)
      (attachments.map fun a => "- ".data ++ a.filename)

/-- Prompt assembly of `chat` (lines 380-411): optional history, memories
and attachments sections; when at least one section is present the literal
request is appended as a final "Nouvelle demande" section and the sections
are joined with blank lines, otherwise the prompt is the raw text. -/
def buildPrompt (history : List (Str × Str)) (memories : List Str)
    (attachments : List Attachment) (text : Str) : Str :=
  let sections :=
    (if history.isEmpty then [] else [historySection history]) ++
    (if memories.isEmpty then [] else [memoriesSection memories]) ++
    (if attachments.isEmpty then [] else [attachmentsSection attachments])
  if sections.isEmpty then text
  else
    List.intercalate ("\n\n".data)
      (sections ++ ["Nouvelle demande :\n".data ++ text])

/-- The attachment note of the memory write (lines 422-428): the audit
branch wins over the shared-files branch. -/
def memoryNote (auditActive : Bool)
    (attachmentsForHistory : List Attachment) : Str :=
  if auditActive then "\nCommande spéciale : auto-audit du code".data
  else if attachmentsForHistory.isEmpty then []
  else
    "\nFichiers partagés : ".data ++
      List.intercalate (", ".data)
        (attachmentsForHistory.map fun a => a.filename)

/-- The question stored in the history ring (lines 436-444): the raw text,
suffixed with a bracketed shared-files line when attachments were kept, or
with the auto-audit marker on the audit path. -/
def historyQuestion (text : Str) (attachmentsForHistory : List Attachment)
    (auditActive : Bool) : Str :=
  if !attachmentsForHistory.isEmpty then
    text ++ "\n[Fichiers partagés : ".data ++
      List.intercalate (", ".data)
        (attachmentsForHistory.map fun a => a.filename) ++ "]".data
  else if auditActive then
    text ++ "\n[Auto-audit interne déclenché]".data
  else text

/-- The JSON payload of a successful `/chat` response. -/
structure ChatPayload where
  response : Str
  audit : Option Str
deriving DecidableEq

/-- A raised `HTTPException`. -/
structure HTTPErr where
  status : Nat
  detail : Str
deriving DecidableEq

/-- Everything one call of the `/chat` handler does: its HTTP outcome, the
provider calls it made (prompt and attachments), the contents handed to
`add_memory`, and the history ring it leaves behind. -/
structure ChatRun where
  result : Except HTTPErr ChatPayload
  providerCalls : List (Str × List Attachment)
  memoryAdds : List Str
  history : List (Str × Str)

/-- Finalisation tail of `chat` (lines 420-452): attempted memory write,
history append, response payload.  `auditReport` is the raw report text on
the audit path.  Memory-write failures are caught and logged, so the model
records the attempted call. -/
def chatFinalize (memoryActive : Bool) (history : List (Str × Str))
    (text responseText : Str) (attachmentsForHistory : List Attachment)
    (auditReport : Option Str) :
    List Str × List (Str × Str) × ChatPayload :=
  let auditActive := auditReport.isSome
  let adds :=
    if memoryActive then
      ["Utilisateur : ".data ++ text
        ++ memoryNote auditActive attachmentsForHistory
        ++ "\nJarvis : ".data ++ responseText]
    else []
  let hq := historyQuestion text attachmentsForHistory auditActive
  (adds, dequeAppend 5 history (hq, responseText),
   ⟨responseText, auditReport⟩)

/-- The `/chat` handler (main.py lines 306-460) as a pure function.
External effects are parameters: `gen` is the provider's
`generate_response`; `auditResult` is the outcome of
`_perform_self_audit` (a filesystem walk plus one provider call, modelled
at its boundary by the report text it returns or the
`ProviderRequestError` it raises; its internal provider call is not
recorded in `providerCalls`).  `providerError` is the stored
`_provider_error`; `providerReady` is whether `_provider` is set. -/
def chat (providerError : Option Str) (providerReady : Bool)
    (gen : Str → List Attachment → Except PErr Str)
    (memory : Option MemoryModel)
    (auditResult : Except PErr Str)
    (history : List (Str × Str))
    (text : Str) (files : Option (List Upload)) : ChatRun :=
  match providerError with
  | some e => ⟨.error ⟨500, e⟩, [], [], history⟩
  | none =>
    if !providerReady then
      ⟨.error ⟨500, "AI provider not initialised".data⟩, [], [], history⟩
    else
      let uploads := files.getD []
      if isSelfReviewRequest text then
        match auditResult with
        | .error e => ⟨.error ⟨502, e.message⟩, [], [], history⟩
        | .ok report =>
          let responseText := pyStrip report
          if responseText.isEmpty then
            ⟨.error ⟨500, "Rapport d\x27auto-audit vide".data⟩, [], [], history⟩
          else
            let fin := chatFinalize memory.isSome history text responseText []
              (some report)
            ⟨.ok fin.2.2, [], fin.1, fin.2.1⟩
      else
        let attachments := uploadsToAttachments uploads
        let memories := relevantMemories memory
        let prompt := buildPrompt history memories attachments text
        match gen prompt attachments with
        | .error e =>
          ⟨.error ⟨502, e.message⟩, [(prompt, attachments)], [], history⟩
        | .ok responseText =>
          let fin := chatFinalize memory.isSome history text responseText
            attachments none
          ⟨.ok fin.2.2, [(prompt, attachments)], fin.1, fin.2.1⟩

/-- The base64 alphabet. -/
def b64Char (n : Nat) : Char :=
  "ABCDEFGHIJKLMNOPQRSTUVWXYZabcdefghijklmnopqrstuvwxyz0123456789+/".data.getD n 'A'

/-- `base64.b64encode` on a byte list, three bytes at a time with `=`
padding. -/
def b64Encode : List Nat → Str
  | [] => []
  | [a] => [b64Char (a / 4), b64Char (a % 4 * 16), '=', '=']
  | [a, b] => [b64Char (a / 4), b64Char (a % 4 * 16 + b / 16),
               b64Char (b % 16 * 4), '=']
  | a :: b :: c :: rest =>
    [b64Char (a / 4), b64Char (a % 4 * 16 + b / 16),
     b64Char (b % 16 * 4 + c / 64), b64Char (c % 64)] ++ b64Encode rest

/-- One entry of the `input_content` list built by
`OpenAIProvider._build_input_content`. -/
inductive OAInputItem where
  | inputText (text : Str)
  | inputImage (imageUrl : Str)
  | inputFile (fileData : Str) (filename : Option Str)
deriving DecidableEq

/-- `attachment.content_type or mimetypes.guess_type(attachment.filename)[0]`
(line 72); `mimetypes.guess_type` is a pure table lookup passed in as
`guess`. -/
def effectiveMime (guess : Str → Option Str) (a : Attachment) :
    Option Str :=
  match a.content_type with
  | some t => if t.isEmpty then guess a.filename else some t
  | none => guess a.filename

/-- The item `_build_input_content` produces for one attachment
(lines 71-85): an inline image for an `image/` mime type, otherwise an
inline file payload carrying the full base64-encoded content, with the
filename attached when non-empty. -/
def attachmentItem (guess : Str → Option Str) (a : Attachment) :
    OAInputItem :=
  let encoded := b64Encode a.content
  let fileItem : OAInputItem :=
    .inputFile encoded (if a.filename.isEmpty then none else some a.filename)
  match effectiveMime guess a with
  | some m =>
    if leadSeg ("image/".data) m then
      .inputImage ("data:".data ++ m ++ ";base64,".data ++ encoded)
    else fileItem
  | none => fileItem

/-- `OpenAIProvider._build_input_content` (lines 64-87): the prompt as an
`input_text` item followed by one item per attachment. -/
def buildInputContent (guess : Str → Option Str) (prompt : Str)
    (attachments : List Attachment) : List OAInputItem :=
  .inputText prompt :: attachments.map (attachmentItem guess)

/-- Modelled from the spec: the synchronous-to-asynchronous Streaming
Bridge of spec §4.3 and §5 is absent from `src/backend/main.py` (the
repository's own tests call `chat` with a `stream` argument this version
of the handler does not take).  Messages of the bounded hand-off channel:
text chunks, the end-of-stream sentinel, the error sentinel. -/
inductive BridgeMsg where
  | chunk (text : Str)
  | endOfStream
  | errorMsg (e : PErr)
deriving DecidableEq

/-- Modelled from the spec (§4.3): the producer worker pushes every chunk
the provider stream yields, then the end sentinel on normal exhaustion or
the error sentinel when the underlying call raised. -/
def producerMsgs (chunks : List Str) (failure : Option PErr) :
    List BridgeMsg :=
  chunks.map .chunk ++
    [match failure with
     | none => .endOfStream
     | some e => .errorMsg e]

/-- Modelled from the spec (§4.3, §5): the consumer loop reads messages in
order, stopping at a sentinel; `reads` bounds how many messages the
consumer takes before disconnecting (cancellation).  Returns the received
chunks and the terminal observation: `none` when the consumer stopped
early, `some none` at end-of-stream, `some (some e)` at an error
sentinel. -/
def bridgeConsume : List BridgeMsg → Nat → List Str × Option (Option PErr)
  | _, 0 => ([], none)
  | [], _ + 1 => ([], none)
  | .chunk t :: ms, n + 1 =>
    let rest := bridgeConsume ms n
    (t :: rest.1, rest.2)
  | .endOfStream :: _, _ + 1 => ([], some none)
  | .errorMsg e :: _, _ + 1 => ([], some (some e))

/-- Modelled from the spec (§4.3): the terminal state of one streaming
request. -/
inductive BridgeOutcome where
  | completed (text : Str)
  | failed (e : PErr)
  | cancelled
deriving DecidableEq

/-- Modelled from the spec (§4.3): the fixed placeholder substituted for
an empty completed stream before finalization. -/
def bridgePlaceholder : Str := "(réponse vide)".data

/-- Modelled from the spec (§4.3, §5): one whole streaming request.  On the
completed path the received chunks are concatenated, an empty text is
replaced by the fixed placeholder, and finalization — one history append
and one memory write — runs exactly once; on the failed and cancelled
paths no finalization runs. -/
structure BridgeRun where
  outcome : BridgeOutcome
  finalized : List (Str × Str)
  memoryWrites : Nat
deriving DecidableEq

/-- Modelled from the spec (§4.3): drive one streaming request for the
question `q`, with the provider yielding `chunks` before terminating
normally (`failure = none`) or raising, and a consumer that reads at most
`reads` messages before disconnecting. -/
def bridgeRun (q : Str) (chunks : List Str) (failure : Option PErr)
    (reads : Nat) : BridgeRun :=
  let c := bridgeConsume (producerMsgs chunks failure) reads
  match c.2 with
  | none => ⟨.cancelled, [], 0⟩
  | some (some e) => ⟨.failed e, [], 0⟩
  | some none =>
    let t0 := c.1.flatten
    let t := if t0.isEmpty then bridgePlaceholder else t0
    ⟨.completed t, [(q, t)], 1⟩

/-! ### Helper lemmas -/

theorem append_ne_left {t e : Str} (he : e ≠ []) : t ++ e ≠ t := by
  intro h
  have hl := congrArg List.length h
  simp only [List.length_append] at hl
  exact he (List.length_eq_zero.mp (by omega))

theorem dropWhile_eq_self_of_head {p : Char → Bool} {c : Char} {l : Str}
    (hc : p c = false) : List.dropWhile p (c :: l) = c :: l := by
  simp [List.dropWhile_cons, hc]

theorem pyStrip_eq_self {l : Str} (h1 : List.dropWhile isPySpace l = l)
    (h2 : List.dropWhile isPySpace l.reverse = l.reverse) : pyStrip l = l := by
  unfold pyStrip
  rw [h1, h2, List.reverse_reverse]

theorem flatten_filter_nonempty (l : List Str) :
    (l.filter fun s => !s.isEmpty).flatten = l.flatten := by
  induction l with
  | nil => rfl
  | cons s rest ih =>
    by_cases hs : s.isEmpty
    · have : s = [] := List.isEmpty_iff.mp hs
      subst this
      simpa using ih
    · simp [List.filter_cons, hs, ih]

/-! ### Claim C5 — History Ring capacity and FIFO order -/

/-- C5: the History Ring (a `deque(maxlen=5)`) never holds more than 5
entries; appending a 6th entry evicts the oldest; after N ≤ 5 appends the
ring holds exactly those N (question, answer) pairs in insertion order,
each entry kept intact. -/
theorem C5_history_ring :
    (∀ (q : List (Str × Str)) (x : Str × Str), q.length ≤ 5 →
        (dequeAppend 5 q x).length ≤ 5) ∧
    (∀ (e0 e1 e2 e3 e4 x : Str × Str),
        dequeAppend 5 [e0, e1, e2, e3, e4] x = [e1, e2, e3, e4, x]) ∧
    (∀ (xs : List (Str × Str)), xs.length ≤ 5 →
        List.foldl (dequeAppend 5) [] xs = xs) := by
  refine ⟨?_, ?_, ?_⟩
  · intro q x hq
    unfold dequeAppend
    split
    · simp
      omega
    · simp
      omega
  · intro e0 e1 e2 e3 e4 x
    simp [dequeAppend]
  · intro xs
    induction xs using List.reverseRecOn with
    | nil => intro; rfl
    | append_singleton ys y ih =>
      intro hlen
      have hy : ys.length ≤ 5 := by
        simp [List.length_append] at hlen
        omega
      have hylt : ys.length < 5 := by
        simp [List.length_append] at hlen
        omega
      rw [List.foldl_append, ih hy]
      simp [dequeAppend, hylt]

/-- Witness for C5 at concrete inputs. -/
theorem C5_witness :
    (dequeAppend 5 [("q1".data, "a1".data)] ("q2".data, "a2".data)).length ≤ 5 ∧
    List.foldl (dequeAppend 5) []
      [("q1".data, "a1".data), ("q2".data, "a2".data)]
      = [("q1".data, "a1".data), ("q2".data, "a2".data)] :=
  ⟨C5_history_ring.1 _ _ (by decide),
   C5_history_ring.2.2 _ (by decide)⟩

/-! ### Claim C2 — streaming finalization (spec-modelled bridge) -/

/-- C2: for every streaming request, finalization (history append plus
memory write) runs at most once, runs exactly when end-of-stream was
reached without cancellation or error, and only stores a non-empty answer
(an empty completed stream is replaced by the fixed placeholder).  The
Streaming Bridge is modelled from spec §4.3/§5, as the streaming chat path
is absent from this version of `main.py`. -/
theorem C2_bridge_finalization (q : Str) (chunks : List Str)
    (failure : Option PErr) (reads : Nat) :
    (bridgeRun q chunks failure reads).finalized.length ≤ 1 ∧
    (bridgeRun q chunks failure reads).memoryWrites
      = (bridgeRun q chunks failure reads).finalized.length ∧
    ((∃ t, (bridgeRun q chunks failure reads).outcome = .completed t) ↔
      (bridgeRun q chunks failure reads).finalized.length = 1) ∧
    (∀ t, (bridgeRun q chunks failure reads).outcome = .completed t →
      t ≠ [] ∧ (bridgeRun q chunks failure reads).finalized = [(q, t)]) := by
  unfold bridgeRun
  rcases hterm : (bridgeConsume (producerMsgs chunks failure) reads).2 with _ | e
  · simp [hterm]
  · rcases e with _ | err
    · simp only [hterm]
      refine ⟨by simp, by simp, ⟨fun _ => by simp, fun _ => ⟨_, rfl⟩⟩, ?_⟩
      intro t ht
      have ht' : (if (bridgeConsume (producerMsgs chunks failure) reads).1.flatten.isEmpty
          then bridgePlaceholder
          else (bridgeConsume (producerMsgs chunks failure) reads).1.flatten) = t := by
        simpa using congrArg
          (fun o => match o with | BridgeOutcome.completed s => s | _ => []) ht
      constructor
      · rw [← ht']
        split
        · decide
        · next hne => simpa [List.isEmpty_iff] using hne
      · simp [← ht']
    · simp [hterm]

/-- Witness for C2: the spec scenario — provider chunks
`["Bon", "jour", "!"]`, fully consumed — finalizes exactly once with the
non-empty concatenation. -/
theorem C2_witness :
    "Bonjour!".data ≠ [] ∧
    (bridgeRun "Bonjour".data ["Bon".data, "jour".data, "!".data] none
      5).finalized = [("Bonjour".data, "Bonjour!".data)] :=
  (C2_bridge_finalization "Bonjour".data ["Bon".data, "jour".data, "!".data]
    none 5).2.2.2 "Bonjour!".data (by decide)

/-! ### Claim C1 — stream/generate equivalence -/

theorem streamEvents_deltas (deltas : List Str) (r : Option OAResponse) :
    streamEvents (deltas.map .delta ++ [.completed r]) none
      = (deltas.filter fun s => !s.isEmpty, r, none) := by
  induction deltas with
  | nil => rfl
  | cons d ds ih =>
    by_cases hd : d.isEmpty
    · simp [streamEvents, hd, ih, List.filter_cons]
    · simp [streamEvents, hd, ih, List.filter_cons]

/-- C1 counterexample: on a backend response whose output text is
`"Hi "` (the streamed deltas concatenating to exactly that text), the
fully-consumed stream concatenates to `"Hi "` while `generate_response`
returns the stripped `"Hi"` — the concatenation law fails as stated. -/
theorem C1_counterexample :
    (openaiStream [.delta "Hi ".data, .completed (some ⟨"Hi ".data, []⟩)]
        none).error = none ∧
    openaiGenerate ⟨"Hi ".data, []⟩ = .ok "Hi".data ∧
    (openaiStream [.delta "Hi ".data, .completed (some ⟨"Hi ".data, []⟩)]
        none).chunks.flatten ≠ "Hi".data :=
  ⟨rfl, rfl, by decide⟩

/-- C1 (amended): the HuggingFace provider's `stream_response` emits the
full `generate_response` text as exactly one chunk; for the OpenAI
provider, whose `generate_response` strips the output text while
`stream_response` yields the raw deltas, the concatenated stream equals
the `generate_response` text only up to stripping of leading/trailing
whitespace — whenever the streamed deltas concatenate to the same
non-blank output text, `generate_response` returns the stripped output
text and the stripped concatenation of the stream's chunks equals it. -/
theorem C1_stream_generate_equiv :
    (∀ (httpResult : Option JVal) (t : Str),
        hfGenerate httpResult = .ok t → hfStream httpResult = ([t], none)) ∧
    (∀ (deltas : List Str) (resp : OAResponse) (getFinal : Option OAResponse),
        deltas.flatten = resp.output_text →
        pyStrip resp.output_text ≠ [] →
        openaiGenerate resp = .ok (pyStrip resp.output_text) ∧
        (openaiStream (deltas.map .delta ++ [.completed (some resp)])
          getFinal).error = none ∧
        pyStrip (openaiStream (deltas.map .delta ++ [.completed (some resp)])
          getFinal).chunks.flatten = pyStrip resp.output_text) := by
  constructor
  · intro httpResult t hgen
    unfold hfStream
    rw [hgen]
  · intro deltas resp getFinal hflat hne
    have hne' : (pyStrip resp.output_text).isEmpty = false := by
      simpa [List.isEmpty_iff] using hne
    have hcs : ((deltas.filter fun s => !s.isEmpty).isEmpty) = false := by
      rcases hfe : deltas.filter fun s => !s.isEmpty with _ | ⟨hd, tl⟩
      · exfalso
        apply hne
        have h0 : deltas.flatten = [] := by
          rw [← flatten_filter_nonempty, hfe]
          rfl
        rw [← hflat, h0]
        rfl
      · rw [hfe]
        rfl
    refine ⟨?_, ?_, ?_⟩
    · simp [openaiGenerate, hne']
    · simp [openaiStream, streamEvents_deltas, hcs]
    · simp only [openaiStream, streamEvents_deltas, hcs]
      simp [flatten_filter_nonempty, hflat]

/-- Witness for C1 at concrete inputs: a HuggingFace payload and the
spec's `["Bon", "jour", "!"]` OpenAI stream. -/
theorem C1_witness :
    hfStream (some (.jarr [.jobj [("generated_text".data,
        .jstr "salut".data)]])) = (["salut".data], none) ∧
    (openaiGenerate ⟨"Bonjour!".data, []⟩
        = .ok (pyStrip "Bonjour!".data) ∧
     (openaiStream ((["Bon".data, "jour".data, "!".data]).map .delta
        ++ [.completed (some ⟨"Bonjour!".data, []⟩)]) none).error = none ∧
     pyStrip (openaiStream ((["Bon".data, "jour".data, "!".data]).map .delta
        ++ [.completed (some ⟨"Bonjour!".data, []⟩)]) none).chunks.flatten
        = pyStrip "Bonjour!".data) :=
  ⟨C1_stream_generate_equiv.1 _ "salut".data rfl,
   C1_stream_generate_equiv.2 ["Bon".data, "jour".data, "!".data]
     ⟨"Bonjour!".data, []⟩ none (by decide) (by decide)⟩

/-! ### Claim C8 — degenerate responses of the OpenAI provider -/

theorem streamEvents_chunks_ne_nil (events : List OAEvent) :
    ∀ (fin : Option OAResponse), ∀ t ∈ (streamEvents events fin).1, t ≠ [] := by
  induction events with
  | nil => simp [streamEvents]
  | cons e es ih =>
    intro fin
    cases e with
    | delta c =>
      by_cases hc : c.isEmpty
      · simpa [streamEvents, hc] using ih fin
      · intro t ht
        simp only [streamEvents, hc, Bool.false_eq_true, if_false,
          List.mem_cons] at ht
        rcases ht with rfl | ht
        · simpa [List.isEmpty_iff] using hc
        · exact ih fin t ht
    | completed r => simpa [streamEvents] using ih r
    | errorEv m => simp [streamEvents]
    | other ty => simpa [streamEvents] using ih fin

/-- C8 counterexample: `generate_response` is not the concatenation of the
accumulated stream — on a backend response with output text `" ok"`
(deltas concatenating to exactly that), the stream concatenates to
`" ok"` while `generate_response` returns `"ok"`. -/
theorem C8_counterexample :
    openaiGenerate ⟨" ok".data, []⟩ = .ok "ok".data ∧
    (openaiStream [.delta " ok".data, .completed (some ⟨" ok".data, []⟩)]
        none).chunks.flatten = " ok".data ∧
    " ok".data ≠ "ok".data :=
  ⟨rfl, rfl, by decide⟩

/-- C8 (amended): OpenAI `generate_response` is an independent
non-streaming call returning the stripped output text (not the
concatenation of the stream, which may retain surrounding whitespace);
both `generate_response` and `stream_response` raise a
`ProviderRequestError` when no text is available — the former when the
output text and the message scan are blank, the latter when it would
otherwise emit nothing — and neither ever returns or yields an empty
string. -/
theorem C8_degenerate_response :
    (∀ (resp : OAResponse) (t : Str), openaiGenerate resp = .ok t → t ≠ []) ∧
    (∀ resp : OAResponse, pyStrip resp.output_text = [] →
        scanOutput resp.output = none →
        openaiGenerate resp
          = .error ⟨"Failed to fetch a response from OpenAI".data⟩) ∧
    (∀ (events : List OAEvent) (getFinal : Option OAResponse),
        (openaiStream events getFinal).chunks = [] →
        (openaiStream events getFinal).error.isSome) ∧
    (∀ (events : List OAEvent) (getFinal : Option OAResponse),
        ∀ t ∈ (openaiStream events getFinal).chunks, t ≠ []) := by
  refine ⟨?_, ?_, ?_, ?_⟩
  · intro resp t h
    by_cases h0 : pyStrip resp.output_text = []
    · by_cases h1 : (scanOutput resp.output).getD [] = []
      · simp [openaiGenerate, h0, h1] at h
      · simp [openaiGenerate, h0, h1] at h
        subst h
        exact h1
    · simp [openaiGenerate, h0] at h
      subst h
      exact h0
  · intro resp h1 h2
    simp [openaiGenerate, h1, h2]
  · intro events getFinal h
    unfold openaiStream at h ⊢
    rcases hrun : streamEvents events none with ⟨cs, fin, err⟩
    rw [hrun] at h
    rcases err with _ | e
    · by_cases hc : cs.isEmpty
      · rcases fin with _ | f
        · rcases getFinal with _ | g
          · simp [hc]
          · by_cases hfb : (streamFallback g).isEmpty
            · simp [hc, hfb]
            · simp [hc, hfb] at h
        · by_cases hfb : (streamFallback f).isEmpty
          · simp [hc, hfb]
          · simp [hc, hfb] at h
      · simp only [hc, Bool.false_eq_true, if_false] at h
        exact absurd h (by simpa [List.isEmpty_iff] using hc)
    · simp
  · intro events getFinal t ht
    have hmem : ∀ s ∈ (streamEvents events none).1, s ≠ [] :=
      streamEvents_chunks_ne_nil events none
    unfold openaiStream at ht
    rcases hrun : streamEvents events none with ⟨cs, fin, err⟩
    rw [hrun] at ht hmem
    rcases err with _ | e
    · by_cases hc : cs.isEmpty
      · rcases fin with _ | f
        · rcases getFinal with _ | g
          · simp [hc] at ht
          · by_cases hfb : (streamFallback g).isEmpty
            · simp [hc, hfb] at ht
            · simp only [hc, if_true, hfb, Bool.false_eq_true, if_false,
                List.mem_singleton] at ht
              subst ht
              simpa [List.isEmpty_iff] using hfb
        · by_cases hfb : (streamFallback f).isEmpty
          · simp [hc, hfb] at ht
          · simp only [hc, if_true, hfb, Bool.false_eq_true, if_false,
              List.mem_singleton] at ht
            subst ht
            simpa [List.isEmpty_iff] using hfb
      · simp only [hc, Bool.false_eq_true, if_false] at ht
        exact hmem t ht
    · exact hmem t ht

/-- Witness for C8: blank output with no message scan makes
`generate_response` raise, and an empty event stream makes
`stream_response` raise. -/
theorem C8_witness :
    openaiGenerate ⟨"  ".data, []⟩
      = .error ⟨"Failed to fetch a response from OpenAI".data⟩ ∧
    (openaiStream [] none).error.isSome :=
  ⟨C8_degenerate_response.2.1 ⟨"  ".data, []⟩ (by decide) rfl,
   C8_degenerate_response.2.2.1 [] none rfl⟩

/-! ### Claim C6 — self-review fallback report -/

theorem dropWhile_reverse_concat (p : Char → Bool) (X : Str) (d : Char)
    (hd : p d = false) :
    List.dropWhile p (X ++ [d]).reverse = (X ++ [d]).reverse := by
  rw [List.reverse_append]
  simp only [List.reverse_cons, List.reverse_nil, List.nil_append,
    List.singleton_append]
  exact dropWhile_eq_self_of_head hd

theorem pyStrip_message (c : Char) (cs A P : Str) (hc : isPySpace c = false) :
    pyStrip ((c :: cs) ++ A ++ P ++ "\n```".data)
      = (c :: cs) ++ A ++ P ++ "\n```".data := by
  have hT : ("\n```".data : Str) = "\n``".data ++ ['`'] := rfl
  have hM : (c :: cs) ++ A ++ P ++ "\n```".data
      = (c :: (cs ++ (A ++ P ++ "\n``".data))) ++ ['`'] := by
    rw [hT]
    simp
  rw [hM]
  apply pyStrip_eq_self
  · rw [List.cons_append]
    exact dropWhile_eq_self_of_head hc
  · exact dropWhile_reverse_concat _ _ '`' (by decide)

theorem fallbackMessage_eq (raw : Str) (c : Char) (cs : Str)
    (hc : isPySpace c = false) :
    fallbackMessage raw (c :: cs)
      = (c :: cs) ++ "\n\nRéponse brute du provider :\n```\n".data
        ++ pyStrip raw ++ "\n```".data :=
  pyStrip_message c cs _ _ hc

/-- C6: whenever the provider response is not parseable as JSON, or parses
to a non-object, the self-review result is a report whose six sections all
hold one identical diagnostic message that embeds the (stripped) raw
provider output; no error is raised and the map is never partially
populated. -/
theorem C6_fallback_uniform (raw : Str) (parsed : Option JVal)
    (hp : parsed = none ∨ ∃ v, parsed = some v ∧ ∀ fields, v ≠ .jobj fields) :
    ∃ m, runSelfReviewParse raw parsed = ⟨m, m, m, m, m, m⟩ ∧
      ∃ pre post, m = pre ++ pyStrip raw ++ post := by
  have key : ∀ (c : Char) (cs : Str), isPySpace c = false →
      ∃ pre post, fallbackMessage raw (c :: cs)
        = pre ++ pyStrip raw ++ post := by
    intro c cs hc
    refine ⟨(c :: cs) ++ "\n\nRéponse brute du provider :\n```\n".data,
      "\n```".data, ?_⟩
    rw [fallbackMessage_eq raw c cs hc]
  rcases hp with rfl | ⟨v, rfl, hv⟩
  · exact ⟨_, rfl, key 'I'
      "mpossible de décoder la réponse du provider en JSON.".data (by decide)⟩
  · rcases v with _ | b | n | s | elems | fields
    · exact ⟨_, rfl, key 'L'
        "e provider n\x27a pas renvoyé un objet JSON pour l\x27audit.".data
        (by decide)⟩
    · exact ⟨_, rfl, key 'L'
        "e provider n\x27a pas renvoyé un objet JSON pour l\x27audit.".data
        (by decide)⟩
    · exact ⟨_, rfl, key 'L'
        "e provider n\x27a pas renvoyé un objet JSON pour l\x27audit.".data
        (by decide)⟩
    · exact ⟨_, rfl, key 'L'
        "e provider n\x27a pas renvoyé un objet JSON pour l\x27audit.".data
        (by decide)⟩
    · exact ⟨_, rfl, key 'L'
        "e provider n\x27a pas renvoyé un objet JSON pour l\x27audit.".data
        (by decide)⟩
    · exact absurd rfl (hv fields)

/-- Witness for C6: an unparseable response and a JSON-array response. -/
theorem C6_witness :
    (∃ m, runSelfReviewParse "oops, not json".data none = ⟨m, m, m, m, m, m⟩ ∧
      ∃ pre post, m = pre ++ pyStrip "oops, not json".data ++ post) ∧
    (∃ m, runSelfReviewParse "[1, 2]".data (some (.jarr [.jnum 1, .jnum 2]))
        = ⟨m, m, m, m, m, m⟩ ∧
      ∃ pre post, m = pre ++ pyStrip "[1, 2]".data ++ post) :=
  ⟨C6_fallback_uniform "oops, not json".data none (Or.inl rfl),
   C6_fallback_uniform "[1, 2]".data (some (.jarr [.jnum 1, .jnum 2]))
     (Or.inr ⟨_, rfl, fun fields h => by cases h⟩)⟩

/-! ### Claim C7 — self-review partial-success contract -/

/-- Field lookup of an `AuditReport` by section key, for stating per-key
properties. -/
def reportField (r : AuditReport) (key : Str) : Str :=
  if key = "architecture".data then r.architecture
  else if key = "securite".data then r.securite
  else if key = "lisibilite_style".data then r.lisibilite_style
  else if key = "performance".data then r.performance
  else if key = "maintenabilite".data then r.maintenabilite
  else if key = "ameliorations_proposees".data then r.ameliorations_proposees
  else []

theorem reportField_parse (raw : Str) (fields : List (Str × JVal)) (k : Str)
    (hk : k ∈ expectedKeys) :
    reportField (runSelfReviewParse raw (some (.jobj fields))) k
      = sectionValue fields k := by
  simp only [expectedKeys, List.mem_cons, List.mem_singleton,
    List.not_mem_nil, or_false] at hk
  rcases hk with rfl | rfl | rfl | rfl | rfl | rfl <;> rfl

/-- C7: when the provider returns a JSON object in which one of the six
expected keys is missing, or holds an empty or non-string value, the
report holds the "missing information" placeholder for exactly that key,
while every key bound to a non-blank string value holds that value
verbatim after trimming. -/
theorem C7_partial_sections (raw : Str) (fields : List (Str × JVal))
    (badKey : Str) (hbk : badKey ∈ expectedKeys)
    (hbad : jGet fields badKey = none ∨
      (∃ v, jGet fields badKey = some v ∧ ∀ s, v ≠ .jstr s) ∨
      (∃ s, jGet fields badKey = some (.jstr s) ∧ pyStrip s = [])) :
    reportField (runSelfReviewParse raw (some (.jobj fields))) badKey
      = missingInfo ∧
    ∀ k, k ∈ expectedKeys → ∀ s, jGet fields k = some (.jstr s) →
      pyStrip s ≠ [] →
      reportField (runSelfReviewParse raw (some (.jobj fields))) k
        = pyStrip s := by
  constructor
  · rw [reportField_parse raw fields badKey hbk]
    rcases hbad with h | ⟨v, h, hv⟩ | ⟨s, h, hs⟩
    · simp [sectionValue, h]
    · rcases v with _ | b | n | s | elems | fs
      · simp [sectionValue, h]
      · simp [sectionValue, h]
      · simp [sectionValue, h]
      · exact absurd rfl (hv s)
      · simp [sectionValue, h]
      · simp [sectionValue, h]
    · simp [sectionValue, h, hs]
  · intro k hk s hget hs
    have hs' : (pyStrip s).isEmpty = false := by
      simpa [List.isEmpty_iff] using hs
    rw [reportField_parse raw fields k hk]
    simp [sectionValue, hget, hs']

/-- A provider payload missing only the `securite` key, used to witness
C7. -/
def fieldsSansSecurite : List (Str × JVal) :=
  [("architecture".data, .jstr " A ".data),
   ("lisibilite_style".data, .jstr "B".data),
   ("performance".data, .jstr "C".data),
   ("maintenabilite".data, .jstr "D".data),
   ("ameliorations_proposees".data, .jstr "E".data)]

/-- Witness for C7: an object missing the `securite` key, with the five
other keys bound to non-blank strings; the report substitutes the
placeholder for `securite` only and keeps the trimmed text elsewhere. -/
theorem C7_witness :
    reportField (runSelfReviewParse "raw".data (some (.jobj
      fieldsSansSecurite))) "securite".data = missingInfo ∧
    reportField (runSelfReviewParse "raw".data (some (.jobj
      fieldsSansSecurite))) "architecture".data = pyStrip " A ".data :=
  ⟨(C7_partial_sections "raw".data fieldsSansSecurite "securite".data
      (by decide) (Or.inl rfl)).1,
   (C7_partial_sections "raw".data fieldsSansSecurite "securite".data
      (by decide) (Or.inl rfl)).2 "architecture".data (by decide)
      " A ".data rfl (by decide)⟩

/-! ### Claim C3 — minimal prompt equals the raw text -/

/-- C3 counterexample: with empty history, memories and attachments, the
handler passes the user text through untrimmed — `" Bonjour "` is sent to
the provider as-is, not as the trimmed `"Bonjour"`. -/
theorem C3_counterexample :
    (chat none true (fun _ _ => .ok "réponse".data) none (.ok []) []
      " Bonjour ".data none).providerCalls = [(" Bonjour ".data, [])] ∧
    " Bonjour ".data ≠ pyStrip " Bonjour ".data :=
  ⟨rfl, by decide⟩

/-- C3 (amended): for a chat request with empty history, no memory and no
attachments, the prompt passed to the provider equals the raw user text
exactly — the handler applies no trimming, so an already-trimmed text such
as `"Bonjour"` yields itself — the provider is called exactly once, and
the response payload is `{response: <provider output>}`. -/
theorem C3_minimal_prompt (text out : Str)
    (gen : Str → List Attachment → Except PErr Str)
    (auditResult : Except PErr Str)
    (hsr : isSelfReviewRequest text = false)
    (hgen : gen text [] = .ok out) :
    (chat none true gen none auditResult [] text none).providerCalls
      = [(text, [])] ∧
    (chat none true gen none auditResult [] text none).result
      = .ok ⟨out, none⟩ ∧
    (chat none true gen none auditResult [] text none).history
      = [(text, out)] := by
  have h0 : uploadsToAttachments [] = [] := rfl
  have h1 : relevantMemories none = [] := rfl
  have h2 : buildPrompt [] [] [] text = text := rfl
  simp only [chat, hsr, Bool.false_eq_true, if_false, Bool.not_true,
    Option.getD_none, h0, h1, h2, hgen]
  refine ⟨?_, ?_, ?_⟩ <;> trivial

/-- Witness for C3: the spec scenario `{text: "Bonjour"}`. -/
theorem C3_witness :
    (chat none true (fun _ _ => .ok "réponse".data) none (.ok []) []
      "Bonjour".data none).providerCalls = [("Bonjour".data, [])] ∧
    (chat none true (fun _ _ => .ok "réponse".data) none (.ok []) []
      "Bonjour".data none).result = .ok ⟨"réponse".data, none⟩ ∧
    (chat none true (fun _ _ => .ok "réponse".data) none (.ok []) []
      "Bonjour".data none).history = [("Bonjour".data, "réponse".data)] :=
  C3_minimal_prompt "Bonjour".data "réponse".data
    (fun _ _ => .ok "réponse".data) (.ok []) (by decide) rfl

/-! ### Claim C4 — blank-text validation (absent from the code) -/

/-- C4, evaluated at the failing input: a whitespace-only user text is
neither trimmed nor rejected — this version of `chat` has no validation
path, so the blank prompt `"   "` is sent to the provider once and the
provider output is returned with a success payload, where the claim
requires a ValidationError before any provider call. -/
theorem C4_blank_text_reaches_provider :
    (chat none true (fun _ _ => .ok "réponse".data) none (.ok []) []
      "   ".data none).providerCalls = [("   ".data, [])] ∧
    (chat none true (fun _ _ => .ok "réponse".data) none (.ok []) []
      "   ".data none).result = .ok ⟨"réponse".data, none⟩ :=
  ⟨rfl, rfl⟩

/-! ### Claim C9 — attachment size and truncation -/

/-- C9 counterexample: an upload of `2^20 + 1` bytes — strictly more than
1 MB — is accepted into the request whole; the handler's only filter is
non-emptiness of the content. -/
theorem C9_counterexample :
    uploadsToAttachments [⟨some "big.bin".data,
        some (List.replicate (2 ^ 20 + 1) 37),
        some "application/octet-stream".data⟩]
      = [⟨"big.bin".data, List.replicate (2 ^ 20 + 1) 37,
          some "application/octet-stream".data⟩] ∧
    2 ^ 20 < (List.replicate (2 ^ 20 + 1) (37 : Nat)).length := by
  constructor
  · rfl
  · rw [List.length_replicate]
    omega

theorem b64Encode_length :
    ∀ bytes : List Nat,
      (b64Encode bytes).length = 4 * ((bytes.length + 2) / 3)
  | [] => by simp [b64Encode]
  | [a] => by simp [b64Encode]
  | [a, b] => by simp [b64Encode]
  | a :: b :: c :: rest => by
    have ih := b64Encode_length rest
    simp [b64Encode, ih]
    omega

/-- C9 (amended): the handler imposes no size limit on attachments — an
upload whose read succeeded is accepted whenever its content is
non-empty, with the content kept whole — and `_build_input_content`
embeds the complete base64 encoding of the content with no
5000-character truncation and no truncation marker: every non-image
attachment becomes an `input_file` item holding the encoding of the whole
content, whose length is exactly `4 * ((n + 2) / 3)` for `n` content
bytes. -/
theorem C9_no_limit :
    (∀ (fn : Option Str) (c : List Nat) (ct : Option Str)
        (rest : List Upload), c ≠ [] →
        uploadsToAttachments (⟨fn, some c, ct⟩ :: rest)
          = ⟨orDefault fn "pièce-jointe".data, c, ct⟩
              :: uploadsToAttachments rest) ∧
    (∀ bytes : List Nat,
        (b64Encode bytes).length = 4 * ((bytes.length + 2) / 3)) ∧
    (∀ (guess : Str → Option Str) (a : Attachment),
        (∀ m, effectiveMime guess a = some m →
          leadSeg "image/".data m = false) →
        attachmentItem guess a
          = .inputFile (b64Encode a.content)
              (if a.filename.isEmpty then none else some a.filename)) := by
  refine ⟨?_, b64Encode_length, ?_⟩
  · intro fn c ct rest hc
    simp [uploadsToAttachments, List.filterMap_cons, hc]
  · intro guess a h
    unfold attachmentItem
    rcases heff : effectiveMime guess a with _ | m
    · rfl
    · have hm := h m heff
      simp [hm]

/-- Witness for C9: a three-byte upload is accepted whole, and four bytes
encode to eight base64 characters. -/
theorem C9_witness :
    uploadsToAttachments [⟨none, some [1, 2, 3], none⟩]
      = [⟨orDefault none "pièce-jointe".data, [1, 2, 3], none⟩] ∧
    (b64Encode [0, 0, 0, 0]).length
      = 4 * ((([0, 0, 0, 0] : List Nat).length + 2) / 3) :=
  ⟨(C9_no_limit.1 none [1, 2, 3] none [] (by decide)).trans rfl,
   C9_no_limit.2.1 [0, 0, 0, 0]⟩

/-! ### Claim C10 — the question stored in the History Ring -/

/-- C10: on a successful non-self-review request that kept at least one
non-empty attachment, the question stored in the History Ring is not the
raw user text but the text followed by a newline and a bracketed
"Fichiers partagés" line listing the attachment filenames joined by
commas; on a self-review request the stored question is the text followed
by the bracketed auto-audit marker. -/
theorem C10_history_question :
    (∀ (text out : Str) (gen : Str → List Attachment → Except PErr Str)
        (memory : Option MemoryModel) (history : List (Str × Str))
        (uploads : List Upload) (auditResult : Except PErr Str),
        isSelfReviewRequest text = false →
        uploadsToAttachments uploads ≠ [] →
        gen (buildPrompt history (relevantMemories memory)
            (uploadsToAttachments uploads) text)
          (uploadsToAttachments uploads) = .ok out →
        (chat none true gen memory auditResult history text
            (some uploads)).history
          = dequeAppend 5 history
              (text ++ "\n[Fichiers partagés : ".data ++
                List.intercalate (", ".data)
                  ((uploadsToAttachments uploads).map fun a => a.filename)
                ++ "]".data, out) ∧
        text ++ "\n[Fichiers partagés : ".data ++
          List.intercalate (", ".data)
            ((uploadsToAttachments uploads).map fun a => a.filename)
          ++ "]".data ≠ text) ∧
    (∀ (text rep : Str) (gen : Str → List Attachment → Except PErr Str)
        (memory : Option MemoryModel) (history : List (Str × Str))
        (files : Option (List Upload)),
        isSelfReviewRequest text = true →
        pyStrip rep ≠ [] →
        (chat none true gen memory (.ok rep) history text files).history
          = dequeAppend 5 history
              (text ++ "\n[Auto-audit interne déclenché]".data, pyStrip rep) ∧
        text ++ "\n[Auto-audit interne déclenché]".data ≠ text) := by
  constructor
  · intro text out gen memory history uploads auditResult hsr hatt hgen
    have hatt' : (uploadsToAttachments uploads).isEmpty = false := by
      simpa [List.isEmpty_iff] using hatt
    constructor
    · simp only [chat, hsr, Bool.false_eq_true, if_false, Bool.not_true,
        Option.getD_some, hgen, chatFinalize, historyQuestion, hatt',
        Bool.not_false, if_true, Option.isSome_none]
    · rw [List.append_assoc, List.append_assoc]
      exact append_ne_left (List.cons_ne_nil _ _)
  · intro text rep gen memory history files hsr hrep
    have hrep' : (pyStrip rep).isEmpty = false := by
      simpa [List.isEmpty_iff] using hrep
    constructor
    · simp only [chat, hsr, if_true, hrep', Bool.false_eq_true, if_false,
        Bool.not_true, chatFinalize, historyQuestion, List.isEmpty_nil,
        Bool.not_false, Option.isSome_some]
    · exact append_ne_left (by decide)

/-- Witness for C10: a request sharing one file stores the annotated
question, and a triggered self-review stores the audit marker. -/
theorem C10_witness :
    ((chat none true (fun _ _ => .ok "ok".data) none (.error ⟨[]⟩) []
        "salut".data
        (some [⟨some "doc.txt".data, some [1], none⟩])).history
      = dequeAppend 5 []
          ("salut".data ++ "\n[Fichiers partagés : ".data ++
            List.intercalate (", ".data)
              ((uploadsToAttachments
                [⟨some "doc.txt".data, some [1], none⟩]).map
                fun a => a.filename)
            ++ "]".data, "ok".data)) ∧
    ((chat none true (fun _ _ => .ok "ok".data) none (.ok "rapport".data)
        [] "fais une auto revue".data none).history
      = dequeAppend 5 []
          ("fais une auto revue".data
            ++ "\n[Auto-audit interne déclenché]".data,
           pyStrip "rapport".data)) :=
  ⟨(C10_history_question.1 "salut".data "ok".data (fun _ _ => .ok "ok".data)
      none [] [⟨some "doc.txt".data, some [1], none⟩] (.error ⟨[]⟩)
      (by decide) (by decide) rfl).1,
   (C10_history_question.2 "fais une auto revue".data "rapport".data
      (fun _ _ => .ok "ok".data) none [] none (by decide) (by decide)).1⟩

end Jarvis
